import Mathlib

/-!
Shallow embedding of the coprocessor-v2 subsystem of this TiKV fork:
the plugin registry (`src/coprv2/plugin_manager.rs`), the request
endpoint (`src/coprv2/endpoint.rs`), the two storage bridges
(`src/coprv2/storage_impl.rs` and `src/coprocessor_v2/raw_storage_impl.rs`),
and the library-name helper (`components/coprocessor_plugin_api/src/util.rs`).

Rust panics (`unwrap`, `expect`, `todo!`) are modelled explicitly: a
function that can panic returns `Except Panic α`, where `Except.error`
carries the panic message.  Bytes are modelled as `List Nat`.
-/

namespace TikvCoprV2

/-- A Rust panic, carrying the panic message. -/
structure Panic where
  msg : String
deriving DecidableEq, Repr

/-- Opaque byte-sequence key (`storage_api::Key = Vec<u8>`). -/
abbrev Key := List Nat

/-- Opaque byte-sequence value (`storage_api::Value = Vec<u8>`). -/
abbrev Value := List Nat

/-- Key-value pair (`storage_api::KvPair`). -/
abbrev KvPair := Key × Value

/-- `storage_api::RegionEpoch`. -/
structure RegionEpoch where
  conf_ver : Nat
  version : Nat
deriving DecidableEq, Repr

/-- `storage_api::Region`. -/
structure Region where
  id : Nat
  start_key : Key
  end_key : Key
  region_epoch : RegionEpoch
deriving DecidableEq, Repr

/-- `Region::default()` (all fields at their `Default` values). -/
def Region.defaultRegion : Region :=
  { id := 0, start_key := [], end_key := [], region_epoch := { conf_ver := 0, version := 0 } }

/-- The request context (`kvproto::kvrpcpb::Context`), abstracted to the
region id it carries; it is opaque to the endpoint, which only clones it. -/
structure Context where
  region_id : Nat
deriving DecidableEq, Repr

/-- A protobuf region error (`kvproto::errorpb::Error`), abstracted to its
message. -/
structure RegionErrorPb where
  message : String
deriving DecidableEq, Repr

/-- `kvproto::coprocessor_v2::RawCoprocessorRequest`. -/
structure RawCoprocessorRequest where
  context : Context
  copr_name : String
  data : List Nat

/-- `kvproto::coprocessor_v2::RawCoprocessorResponse`. -/
structure RawCoprocessorResponse where
  data : List Nat
  region_error : Option RegionErrorPb
  other_error : String
deriving DecidableEq, Repr

/-- `RawCoprocessorResponse::new()`: every field at its protobuf default. -/
def RawCoprocessorResponse.new : RawCoprocessorResponse :=
  { data := [], region_error := none, other_error := "" }

/-- `coprv2::storage_api::Error`, the error type a plugin handler may
return to the endpoint. -/
inductive CoprError where
  | RegionError (e : RegionErrorPb)
  | OtherError (s : String)
deriving DecidableEq, Repr

/-- Outcome of one invocation of a plugin handler
(`CoprocessorPlugin::on_raw_coprocessor_request`): a successful byte
result, a returned `storage_api::Error`, or a Rust panic inside the
handler. -/
inductive HandlerOutcome where
  | ok (bytes : List Nat)
  | err (e : CoprError)
  | panicked (msg : String)

/-- A coprocessor plugin object (`plugin_api::CoprocessorPlugin`): its
`name()` and its request handler.  The handler is modelled as a function
of the region and the raw request bytes (the storage handle it also
receives does not influence dispatching). -/
structure CoprocessorPlugin where
  name : String
  handler : Region → List Nat → HandlerOutcome

/-- The registry state of `PluginManager`: its `loaded_plugins` map from
plugin name to plugin, modelled as an association list with unique keys
(the `BTreeMap`). -/
abbrev PluginManager := List (String × CoprocessorPlugin)

/-- `BTreeMap::insert`: replace the entry for the key if present,
otherwise add one. -/
def mapInsert (m : PluginManager) (k : String) (v : CoprocessorPlugin) : PluginManager :=
  match m with
  | [] => [(k, v)]
  | (k0, v0) :: rest => if k0 = k then (k, v) :: rest else (k0, v0) :: mapInsert rest k v

/-- `BTreeMap::remove`: drop every entry for the key (on the unique-key
maps the registry maintains this coincides with removing the single
entry). -/
def mapRemove (m : PluginManager) (k : String) : PluginManager :=
  match m with
  | [] => []
  | (k0, v0) :: rest => if k0 = k then mapRemove rest k else (k0, v0) :: mapRemove rest k

/-- `PluginManager::get_plugin`: look the plugin up by its name. -/
def get_plugin (m : PluginManager) (plugin_name : String) : Option CoprocessorPlugin :=
  match m with
  | [] => none
  | (k, v) :: rest => if k = plugin_name then some v else get_plugin rest plugin_name

/-- `CoprV2Endpoint::handle_request` (`src/coprv2/endpoint.rs`).

The source calls `.unwrap()` on `get_plugin`, so a missing plugin is a
panic; it calls `.unwrap()` on the handler result, so a handler error is
a panic; a panic inside the handler propagates (there is no
`catch_unwind`).  On the success path it builds a fresh default response
and sets only its `data` field.  The method takes `&self`; the manager
state is threaded through unchanged to make that frame condition
explicit. -/
def handle_request (pm : PluginManager) (req : RawCoprocessorRequest) :
    Except Panic (PluginManager × RawCoprocessorResponse) :=
  match get_plugin pm req.copr_name with
  | none => Except.error { msg := "called unwrap on a None value" }
  | some plugin =>
    match plugin.handler Region.defaultRegion req.data with
    | HandlerOutcome.panicked msg => Except.error { msg := msg }
    | HandlerOutcome.err _ => Except.error { msg := "called unwrap on an Err value" }
    | HandlerOutcome.ok result =>
      Except.ok (pm, { RawCoprocessorResponse.new with data := result })

/-- A model of the example plugin's `Panic` arm
(`test_coprocessor_plugin/example_plugin`): the handler panics with the
intended message. -/
def examplePanicPlugin : CoprocessorPlugin :=
  { name := "example-plugin"
    handler := fun _ _ =>
      HandlerOutcome.panicked "Coprocessor plugin received a PanicRequest. This panic is intended." }

/-- A model of a plugin whose handler returns a `storage_api::Error` to
the endpoint. -/
def errorReturningPlugin : CoprocessorPlugin :=
  { name := "error-plugin"
    handler := fun _ _ => HandlerOutcome.err (CoprError.OtherError "storage failure") }

/-- A plugin whose handler echoes the request bytes back. -/
def echoPlugin : CoprocessorPlugin :=
  { name := "echo"
    handler := fun _ data => HandlerOutcome.ok data }

/-! Internal storage error model (`storage::errors::Error` and the engine
error it wraps), and the translation into the plugin-facing error
taxonomy performed by `src/coprocessor_v2/raw_storage_impl.rs`. -/

/-- The `key_not_in_region` payload of a `kvproto::errorpb::Error`. -/
structure KeyNotInRegionPb where
  key : Key
  region_id : Nat
  start_key : Key
  end_key : Key
deriving DecidableEq, Repr

/-- A `kvproto::errorpb::Error` as inspected by the translation: its
optional `key_not_in_region` payload and its message. -/
structure RequestErrorPb where
  key_not_in_region : Option KeyNotInRegionPb
  message : String
deriving DecidableEq, Repr

/-- `storage::kv::ErrorInner` (the engine error), keeping the two
variants the translation inspects and abstracting the rest. -/
inductive EngineErrorInner where
  | Request (e : RequestErrorPb)
  | Timeout (duration : Nat)
  | EngineOther (tag : String)
deriving DecidableEq, Repr

/-- `storage::errors::ErrorInner`, keeping the `Engine` variant the
translation inspects and abstracting the rest. -/
inductive StorageErrorInner where
  | Engine (e : EngineErrorInner)
  | NonEngine (tag : String)
deriving DecidableEq, Repr

/-- Modelled from the spec: `coprocessor_plugin_api::StorageError`, the
plugin-facing error taxonomy (its declaration is not under `src/`; the
variants and their fields follow the spec's PluginError data model and
the construction sites in `raw_storage_impl.rs`).  `Other` carries the
original internal error as an opaque value. -/
inductive StorageError where
  | KeyNotInRegion (key : Key) (region : Region) (start_key : Key) (end_key : Key)
  | Timeout (duration : Nat)
  | Canceled
  | Other (original : StorageErrorInner)
deriving DecidableEq, Repr

/-- `impl From<storage::errors::Error> for StorageErrorShim`
(`src/coprocessor_v2/raw_storage_impl.rs`).

The first arm matches an engine request error whose
`has_key_not_in_region()` holds; its body builds a `KeyNotInRegion` whose
`region` field is `todo!()`, so evaluating that arm panics with
"not yet implemented".  An engine `Timeout(duration)` becomes
`Timeout(duration)`.  Every other error (the wildcard arm, including a
request error without the `key_not_in_region` payload) becomes `Other`
carrying the original error. -/
def storageErrorShim_from (error : StorageErrorInner) : Except Panic StorageError :=
  match error with
  | StorageErrorInner.Engine (EngineErrorInner.Request req_err) =>
    if req_err.key_not_in_region.isSome then
      Except.error { msg := "not yet implemented" }
    else
      Except.ok (StorageError.Other error)
  | StorageErrorInner.Engine (EngineErrorInner.Timeout duration) =>
    Except.ok (StorageError.Timeout duration)
  | _ => Except.ok (StorageError.Other error)

/-- The outcome of awaiting a `paired_future_callback` completion
channel: canceled before producing a value, or ready with a value. -/
inductive ChannelOutcome (α : Type) where
  | canceled
  | ready (a : α)

/-- `storage::Result<()>` for a raw write submitted to the engine. -/
abbrev KvWriteResult := Except StorageErrorInner Unit

/-- Modelled from the spec: `storage::errors::extract_region_error` (not
under `src/`) returns the protobuf region error when the internal error
is an engine-level request error, and `none` otherwise. -/
def extract_region_error (v : KvWriteResult) : Option RegionErrorPb :=
  match v with
  | Except.error (StorageErrorInner.Engine (EngineErrorInner.Request req_err)) =>
    some { message := req_err.message }
  | _ => none

/-- Modelled from the spec: the Display rendering of an internal storage
error (its Display impl is not under `src/`); used opaquely by the
coprv2 bridge's `OtherError(format!(..))` path. -/
def formatError : StorageErrorInner → String
  | StorageErrorInner.Engine (EngineErrorInner.Request req_err) => req_err.message
  | StorageErrorInner.Engine (EngineErrorInner.Timeout duration) => "timeout " ++ toString duration
  | StorageErrorInner.Engine (EngineErrorInner.EngineOther tag) => tag
  | StorageErrorInner.NonEngine tag => tag

/-- `RawStorageImpl::put` of the older bridge (`src/coprv2/storage_impl.rs`),
parameterized by the engine's synchronous submission result and the
completion-channel outcome.  If submission fails the error is normalized
directly; otherwise the channel is awaited with
`f.await.expect("future got canceled")`, so a canceled channel is a
panic.  The ready value is then normalized: a region error becomes
`CoprError.RegionError`, any other error becomes `CoprError.OtherError`
with the formatted message. -/
def coprv2_raw_put (submit : KvWriteResult) (completion : ChannelOutcome KvWriteResult) :
    Except Panic (Except CoprError Unit) :=
  let vres : Except Panic KvWriteResult :=
    match submit with
    | Except.error e => Except.ok (Except.error e)
    | Except.ok _ =>
      match completion with
      | ChannelOutcome.canceled => Except.error { msg := "future got canceled" }
      | ChannelOutcome.ready r => Except.ok r
  match vres with
  | Except.error p => Except.error p
  | Except.ok v =>
    match extract_region_error v with
    | some err => Except.ok (Except.error (CoprError.RegionError err))
    | none =>
      match v with
      | Except.error e => Except.ok (Except.error (CoprError.OtherError (formatError e)))
      | Except.ok _ => Except.ok (Except.ok ())

/-- `RawStorageImpl::put` of the newer bridge
(`src/coprocessor_v2/raw_storage_impl.rs`), parameterized the same way.
A failed submission and a ready error both go through the
`StorageErrorShim` translation (which may itself panic on the
`todo!()`); a canceled channel goes through `From<Canceled>` and becomes
`StorageError.Canceled`. -/
def coprocessor_v2_raw_put (submit : KvWriteResult)
    (completion : ChannelOutcome KvWriteResult) :
    Except Panic (Except StorageError Unit) :=
  match submit with
  | Except.error e =>
    match storageErrorShim_from e with
    | Except.error p => Except.error p
    | Except.ok se => Except.ok (Except.error se)
  | Except.ok _ =>
    match completion with
    | ChannelOutcome.canceled => Except.ok (Except.error StorageError.Canceled)
    | ChannelOutcome.ready (Except.error e) =>
      match storageErrorShim_from e with
      | Except.error p => Except.error p
      | Except.ok se => Except.ok (Except.error se)
    | ChannelOutcome.ready (Except.ok _) => Except.ok (Except.ok ())

/-! Column-family and TTL arguments passed per operation by the two
bridges. -/

/-- The eight operations of the `RawStorage` capability interface. -/
inductive BridgeOp where
  | get
  | batch_get
  | scan
  | put
  | batch_put
  | delete
  | batch_delete
  | delete_range
deriving DecidableEq, Repr

/-- `engine_traits::CF_DEFAULT` (the crate is external to `src/`; the
constant is the engine's default column family name). -/
def CF_DEFAULT : String := "default"

/-- `u64::MAX`, the maximal TTL value the engine's write API accepts. -/
def u64Max : Nat := 2 ^ 64 - 1

/-- The `cf` argument each method of the newer bridge
(`src/coprocessor_v2/raw_storage_impl.rs`) passes to the engine: every
method binds `let cf = engine_traits::CF_DEFAULT.to_string()`. -/
def coprocessor_v2_cf : BridgeOp → String
  | BridgeOp.get => CF_DEFAULT
  | BridgeOp.batch_get => CF_DEFAULT
  | BridgeOp.scan => CF_DEFAULT
  | BridgeOp.put => CF_DEFAULT
  | BridgeOp.batch_put => CF_DEFAULT
  | BridgeOp.delete => CF_DEFAULT
  | BridgeOp.batch_delete => CF_DEFAULT
  | BridgeOp.delete_range => CF_DEFAULT

/-- The `cf` argument each method of the older bridge
(`src/coprv2/storage_impl.rs`) passes to the engine: every method binds
`let cf = "".to_string()`. -/
def coprv2_cf : BridgeOp → String
  | BridgeOp.get => ""
  | BridgeOp.batch_get => ""
  | BridgeOp.scan => ""
  | BridgeOp.put => ""
  | BridgeOp.batch_put => ""
  | BridgeOp.delete => ""
  | BridgeOp.batch_delete => ""
  | BridgeOp.delete_range => ""

/-- The TTL argument the newer bridge passes to the engine: `put` and
`batch_put` bind `let ttl = u64::MAX`; no other operation takes a TTL. -/
def coprocessor_v2_ttl : BridgeOp → Option Nat
  | BridgeOp.put => some u64Max
  | BridgeOp.batch_put => some u64Max
  | _ => none

/-- Modelled from the spec: the engine resolves a requested raw
column-family name (TiKV's `rawkv_cf`, not under `src/`): the empty name
and the default name both denote the default column family; other names
are rejected. -/
def rawkv_cf (cf : String) : Option String :=
  if cf = "" then some CF_DEFAULT
  else if cf = CF_DEFAULT then some CF_DEFAULT
  else none

/-! Plugin loading (`src/coprv2/plugin_manager.rs`): `load_plugin`,
`LoadedPlugin::new`, and the lifecycle the wrapper enforces. -/

/-- A dynamically opened library as the loader sees it: whether it
exports the plugin-create symbol, the plugin its constructor builds, and
whether the plugin's `on_plugin_load` hook panics. -/
structure DynLibrary where
  has_plugin_create : Bool
  plugin : CoprocessorPlugin
  load_hook_panics : Bool

/-- The outcome of `Library::new(filename)` for a given path: an io
failure, or an opened library. -/
inductive LibOpen where
  | failure (cause : String)
  | opened (lib : DynLibrary)

/-- `LoadedPlugin::new` (`src/coprv2/plugin_manager.rs`): pin the
library, resolve the `_plugin_create` symbol with
`.expect("The _plugin_create symbol was not found.")` (a panic when the
symbol is missing), invoke the constructor, then invoke
`on_plugin_load()` (a panic there propagates out of `new`). -/
def LoadedPlugin_new (lib : DynLibrary) : Except Panic CoprocessorPlugin :=
  if lib.has_plugin_create then
    if lib.load_hook_panics then
      Except.error { msg := "panic in on_plugin_load" }
    else
      Except.ok lib.plugin
  else
    Except.error { msg := "The plugin create symbol was not found." }

/-- `PluginManager::load_plugin` (`src/coprv2/plugin_manager.rs`),
parameterized by the outcome of opening the library file.  The source
calls `Library::new(filename).expect("failed to load library")`, so an
open failure is a panic; on success the plugin is inserted into
`loaded_plugins` keyed by `plugin.name()`. -/
def load_plugin (pm : PluginManager) (openResult : LibOpen) : Except Panic PluginManager :=
  match openResult with
  | LibOpen.failure _ => Except.error { msg := "failed to load library" }
  | LibOpen.opened lib =>
    match LoadedPlugin_new lib with
    | Except.error p => Except.error p
    | Except.ok plugin => Except.ok (mapInsert pm plugin.name plugin)

/-- An observable event in the life of one `LoadedPlugin` handle. -/
inductive PluginEvent where
  | loadHook
  | handlerCall (i : Nat)
  | unloadHook
  | destroyPlugin
  | closeLib
deriving DecidableEq, Repr

/-- The events of dropping a `LoadedPlugin`: its `Drop` impl calls
`on_plugin_unload()`, then the fields drop in declaration order —
`plugin` (the plugin object's destructor) before `lib` (closing the
library). -/
def dropEvents : List PluginEvent :=
  [PluginEvent.unloadHook, PluginEvent.destroyPlugin, PluginEvent.closeLib]

/-- The full event trace of one plugin handle, derived from
`LoadedPlugin::new`, the `Drop` impl, and Rust's unwinding rules.

With a completing load hook: `new` fires the load hook once before
returning (and the handle is only reachable for handler calls after
`new` returns), then `numCalls` handler invocations occur, then the drop
events.  When the load hook panics inside `new`, unwinding drops the
local plugin box (running the plugin destructor) and then the pinned
library, without the handle ever existing — so no unload hook and no
handler call. -/
def lifecycleTrace : Bool → Nat → List PluginEvent
  | true, _ => [PluginEvent.destroyPlugin, PluginEvent.closeLib]
  | false, numCalls =>
    PluginEvent.loadHook :: ((List.range numCalls).map PluginEvent.handlerCall ++ dropEvents)

/-! Registry operation sequences (claim C7).  `RegOp.install` models a
successful `load_plugin` of a library file (its insertion step, keyed by
`plugin.name()`); `uninstall` is modelled from the spec, since the
source has no uninstall operation. -/

/-- A plugin library file on disk: the path it is loaded from and the
plugin its constructor produces. -/
structure PluginFile where
  path : String
  plugin : CoprocessorPlugin

/-- An operation applied to the registry. -/
inductive RegOp where
  | install (f : PluginFile)
  | uninstall (name : String)

/-- The registry key an operation concerns: an install is keyed by the
name reported by the plugin itself, never by the file path. -/
def keyOf : RegOp → String
  | RegOp.install f => f.plugin.name
  | RegOp.uninstall n => n

/-- Apply one operation to the registry map: install inserts under
`plugin.name()` (as `load_plugin` does); uninstall removes the entry.
Modelled from the spec: uninstall ("remove the handle from the mapping")
is not present in the source. -/
def applyOp (pm : PluginManager) : RegOp → PluginManager
  | RegOp.install f => mapInsert pm f.plugin.name f.plugin
  | RegOp.uninstall n => mapRemove pm n

/-- Apply a sequence of operations, oldest first. -/
def applyOps (pm : PluginManager) (ops : List RegOp) : PluginManager :=
  ops.foldl applyOp pm

/-- Fold step computing the last operation whose key is `name`. -/
def lastOpStep (name : String) (acc : Option RegOp) (op : RegOp) : Option RegOp :=
  if keyOf op = name then some op else acc

/-- The last operation in the sequence whose key is `name`, if any. -/
def lastOpFor (name : String) (ops : List RegOp) : Option RegOp :=
  ops.foldl (lastOpStep name) none

/-- A concrete plugin file whose path differs from the plugin's own
name. -/
def examplePluginFile : PluginFile :=
  { path := "libexample.so", plugin := echoPlugin }

/-! The library-name helper
(`components/coprocessor_plugin_api/src/util.rs`). -/

/-- The platform the `cfg!(target_os = ..)` chain distinguishes; the
trailing `else` branch of the source is Linux (and any other unix). -/
inductive TargetOs where
  | windows
  | macos
  | linux
deriving DecidableEq, Repr

/-- Rust's `str::replace("-", "_")`: scan the characters and substitute
each occurrence of the single-character pattern. -/
def replaceDash : List Char → List Char
  | [] => []
  | c :: rest => (if c = '-' then '_' else c) :: replaceDash rest

/-- `pkgname_to_libname`: normalize hyphens in the package name, then
format per platform. -/
def pkgname_to_libname (os : TargetOs) (pkgname : List Char) : List Char :=
  let pkgname := replaceDash pkgname
  match os with
  | TargetOs.windows => pkgname ++ ".dll".data
  | TargetOs.macos => "lib".data ++ pkgname ++ ".dylib".data
  | TargetOs.linux => "lib".data ++ pkgname ++ ".so".data

/-- The spec's description of the name normalization: every hyphen of
the package name replaced, pointwise, by an underscore. -/
def hyphensNormalized (s : List Char) : List Char :=
  s.map fun c => if c = '-' then '_' else c

end TikvCoprV2

namespace TikvCoprV2

/-- Claim C1: the claim says a request whose `copr_name` resolves to no
installed plugin yields a response with non-empty `other_error` and empty
`data`, without panicking.  The code instead calls `.unwrap()` on the
`None` returned by `get_plugin` and panics: dispatching
`copr_name = "nonexistent"` against an empty registry is a panic, not a
response. -/
theorem handle_request_missing_plugin_panics :
    handle_request []
      { context := { region_id := 1 }, copr_name := "nonexistent", data := [] } =
      Except.error { msg := "called unwrap on a None value" } := rfl

/-- Claim C2: the claim says a plugin handler that panics (or returns a
`PluginError`) is caught at the boundary and turned into a non-empty
`other_error` response.  The code has no `catch_unwind` and calls
`.unwrap()` on the handler result, so both a handler panic and a handler
error escape `handle_request` as a panic instead of producing a
response. -/
theorem handle_request_plugin_crash_not_caught :
    handle_request [("example-plugin", examplePanicPlugin)]
      { context := { region_id := 1 }, copr_name := "example-plugin", data := [] } =
      Except.error
        { msg := "Coprocessor plugin received a PanicRequest. This panic is intended." } ∧
    handle_request [("error-plugin", errorReturningPlugin)]
      { context := { region_id := 1 }, copr_name := "error-plugin", data := [] } =
      Except.error { msg := "called unwrap on an Err value" } :=
  ⟨rfl, rfl⟩

/-- Claim C10: when the plugin is found and its handler returns bytes
(all panicking paths excluded by hypothesis), the response's `data` field
is exactly those bytes, `other_error` stays at its default `""`,
`region_error` stays unset, and the plugin-manager state is unchanged. -/
theorem handle_request_success_frame (pm : PluginManager) (req : RawCoprocessorRequest)
    (plugin : CoprocessorPlugin) (bytes : List Nat)
    (hfind : get_plugin pm req.copr_name = some plugin)
    (hok : plugin.handler Region.defaultRegion req.data = HandlerOutcome.ok bytes) :
    handle_request pm req =
      Except.ok (pm, { data := bytes, region_error := none, other_error := "" }) := by
  simp only [handle_request, hfind, hok, RawCoprocessorResponse.new]

/-- Witness for C10 at a concrete registry, request and plugin. -/
theorem handle_request_success_frame_witness :
    handle_request [("echo", echoPlugin)]
      { context := { region_id := 7 }, copr_name := "echo", data := [1, 2, 3] } =
      Except.ok ([("echo", echoPlugin)],
        { data := [1, 2, 3], region_error := none, other_error := "" }) :=
  handle_request_success_frame [("echo", echoPlugin)]
    { context := { region_id := 7 }, copr_name := "echo", data := [1, 2, 3] }
    echoPlugin [1, 2, 3] rfl rfl

/-- Claim C3: the claim says an internal Engine/Request error carrying
"key not in region" becomes `KeyNotInRegion` with fields drawn from the
engine-reported error.  In the code that arm's `region` field is
`todo!()`, so the translation panics on exactly that input; the
`Timeout` and `Other` clauses of the claim do hold, as the second and
third conjuncts show. -/
theorem storage_error_translation :
    storageErrorShim_from
        (StorageErrorInner.Engine (EngineErrorInner.Request
          { key_not_in_region :=
              some { key := [107], region_id := 1, start_key := [97], end_key := [122] },
            message := "key 107 not in region 1" })) =
      Except.error { msg := "not yet implemented" } ∧
    storageErrorShim_from (StorageErrorInner.Engine (EngineErrorInner.Timeout 5)) =
      Except.ok (StorageError.Timeout 5) ∧
    storageErrorShim_from (StorageErrorInner.NonEngine "scheduler is busy") =
      Except.ok (StorageError.Other (StorageErrorInner.NonEngine "scheduler is busy")) :=
  ⟨rfl, rfl, rfl⟩

/-- Claim C4: the claim says a completion channel canceled before
producing a value surfaces as `PluginError::Canceled` in every bridge.
The older bridge (`src/coprv2/storage_impl.rs`) instead panics with
"future got canceled" via `.expect(..)`; the newer bridge
(`src/coprocessor_v2/raw_storage_impl.rs`) does return `Canceled`, as the
second conjunct shows. -/
theorem canceled_channel_behavior :
    coprv2_raw_put (Except.ok ()) ChannelOutcome.canceled =
      Except.error { msg := "future got canceled" } ∧
    coprocessor_v2_raw_put (Except.ok ()) ChannelOutcome.canceled =
      Except.ok (Except.error StorageError.Canceled) :=
  ⟨rfl, rfl⟩

/-- Claim C8: every bridge operation's column-family argument resolves to
the engine's default column family — the newer bridge passes
`CF_DEFAULT` outright and the older bridge passes the empty name, which
the engine resolves to the default family — and both write operations of
the newer bridge pass the maximal TTL `u64::MAX = 2^64 - 1`. -/
theorem bridge_cf_and_ttl (op : BridgeOp) :
    rawkv_cf (coprocessor_v2_cf op) = some CF_DEFAULT ∧
    rawkv_cf (coprv2_cf op) = some CF_DEFAULT ∧
    coprocessor_v2_ttl BridgeOp.put = some u64Max ∧
    coprocessor_v2_ttl BridgeOp.batch_put = some u64Max ∧
    u64Max = 2 ^ 64 - 1 := by
  cases op <;> exact ⟨rfl, rfl, rfl, rfl, rfl⟩

/-- Claim C5: the claim says `install(path)` returns a `LoadFailure`
error result (without panicking) when opening the library fails or the
`_plugin_create` symbol is missing.  The code instead panics in both
situations, via `.expect("failed to load library")` and
`.expect(..)` on the missing symbol; no `LoadFailure` value exists in
the source. -/
theorem load_plugin_failure_panics :
    load_plugin [] (LibOpen.failure "no such file or directory") =
      Except.error { msg := "failed to load library" } ∧
    load_plugin []
        (LibOpen.opened
          { has_plugin_create := false, plugin := echoPlugin, load_hook_panics := false }) =
      Except.error { msg := "The plugin create symbol was not found." } :=
  ⟨rfl, rfl⟩

lemma replaceDash_eq_map (s : List Char) :
    replaceDash s = s.map fun c => if c = '-' then '_' else c := by
  induction s with
  | nil => rfl
  | cons c rest ih => simp [replaceDash, ih]

lemma replaceDash_count (s : List Char) : (replaceDash s).count '-' = 0 := by
  induction s with
  | nil => rfl
  | cons c rest ih =>
    by_cases h : c = '-' <;> simp [replaceDash, List.count_cons, h, ih]

/-- Claim C9: `pkgname_to_libname` produces `lib<pkg>.so` on Linux,
`lib<pkg>.dylib` on macOS, and `<pkg>.dll` on Windows, where `<pkg>` is
the package name with every hyphen replaced, pointwise, by an
underscore (in particular no hyphen remains in the normalized name). -/
theorem pkgname_to_libname_spec (pkg : List Char) :
    pkgname_to_libname TargetOs.linux pkg =
      "lib".data ++ hyphensNormalized pkg ++ ".so".data ∧
    pkgname_to_libname TargetOs.macos pkg =
      "lib".data ++ hyphensNormalized pkg ++ ".dylib".data ∧
    pkgname_to_libname TargetOs.windows pkg =
      hyphensNormalized pkg ++ ".dll".data ∧
    (hyphensNormalized pkg).count '-' = 0 := by
  have h := replaceDash_eq_map pkg
  have hc := replaceDash_count pkg
  rw [h] at hc
  exact ⟨by rw [pkgname_to_libname, hyphensNormalized, ← h],
    by rw [pkgname_to_libname, hyphensNormalized, ← h],
    by rw [pkgname_to_libname, hyphensNormalized, ← h], hc⟩

lemma handlerCall_not_mem_map (e : PluginEvent) (h : ∀ i, PluginEvent.handlerCall i ≠ e)
    (l : List Nat) : e ∉ l.map PluginEvent.handlerCall := by
  intro hmem
  rcases List.mem_map.mp hmem with ⟨i, _, hi⟩
  exact h i hi

/-- Claim C6: lifecycle invariants of a plugin handle, read off the
event trace derived from `LoadedPlugin::new` and its `Drop` impl.
In a normal lifecycle the load hook fires exactly once and is the very
first event (in particular it precedes every handler call), the unload
hook fires exactly once and is immediately followed by the plugin
object's destruction, the destruction is immediately followed by the
library close, and the close is the last event (so the library outlives
the plugin object).  When the load hook fails to complete, the unload
hook never fires, and the plugin object is still destroyed before the
library is closed. -/
theorem plugin_lifecycle_invariants (n : Nat) :
    (lifecycleTrace false n).count PluginEvent.loadHook = 1 ∧
    (lifecycleTrace false n).indexOf PluginEvent.loadHook = 0 ∧
    (lifecycleTrace false n).count PluginEvent.unloadHook = 1 ∧
    (lifecycleTrace false n).indexOf PluginEvent.unloadHook + 1 =
      (lifecycleTrace false n).indexOf PluginEvent.destroyPlugin ∧
    (lifecycleTrace false n).indexOf PluginEvent.destroyPlugin + 1 =
      (lifecycleTrace false n).indexOf PluginEvent.closeLib ∧
    (lifecycleTrace false n).indexOf PluginEvent.closeLib + 1 =
      (lifecycleTrace false n).length ∧
    (lifecycleTrace true n).count PluginEvent.unloadHook = 0 ∧
    (lifecycleTrace true n).indexOf PluginEvent.destroyPlugin <
      (lifecycleTrace true n).indexOf PluginEvent.closeLib := by
  have htr : lifecycleTrace false n =
      PluginEvent.loadHook ::
        ((List.range n).map PluginEvent.handlerCall ++ dropEvents) := rfl
  have hload : (PluginEvent.loadHook ∉ (List.range n).map PluginEvent.handlerCall) :=
    handlerCall_not_mem_map _ (fun i h => PluginEvent.noConfusion h) _
  have hunload : (PluginEvent.unloadHook ∉ (List.range n).map PluginEvent.handlerCall) :=
    handlerCall_not_mem_map _ (fun i h => PluginEvent.noConfusion h) _
  have hdestroy : (PluginEvent.destroyPlugin ∉ (List.range n).map PluginEvent.handlerCall) :=
    handlerCall_not_mem_map _ (fun i h => PluginEvent.noConfusion h) _
  have hclose : (PluginEvent.closeLib ∉ (List.range n).map PluginEvent.handlerCall) :=
    handlerCall_not_mem_map _ (fun i h => PluginEvent.noConfusion h) _
  have hne_lu : PluginEvent.loadHook ≠ PluginEvent.unloadHook := by decide
  have hne_ld : PluginEvent.loadHook ≠ PluginEvent.destroyPlugin := by decide
  have hne_lc : PluginEvent.loadHook ≠ PluginEvent.closeLib := by decide
  have hD0 : dropEvents.indexOf PluginEvent.unloadHook = 0 := by decide
  have hD1 : dropEvents.indexOf PluginEvent.destroyPlugin = 1 := by decide
  have hD2 : dropEvents.indexOf PluginEvent.closeLib = 2 := by decide
  refine ⟨?_, ?_, ?_, ?_, ?_, ?_, ?_, ?_⟩
  · rw [htr]
    simp [List.count_cons, List.count_append, List.count_eq_zero.mpr hload, dropEvents]
  · rw [htr, List.indexOf_cons_self]
  · rw [htr]
    simp [List.count_cons, List.count_append, List.count_eq_zero.mpr hunload, dropEvents]
  · rw [htr, List.indexOf_cons_ne _ hne_lu, List.indexOf_cons_ne _ hne_ld,
      List.indexOf_append_of_not_mem hunload, List.indexOf_append_of_not_mem hdestroy,
      hD0, hD1]
  · rw [htr, List.indexOf_cons_ne _ hne_ld, List.indexOf_cons_ne _ hne_lc,
      List.indexOf_append_of_not_mem hdestroy, List.indexOf_append_of_not_mem hclose,
      hD1, hD2]
  · rw [htr, List.indexOf_cons_ne _ hne_lc, List.indexOf_append_of_not_mem hclose, hD2]
    simp [List.length_cons, List.length_append, List.length_map, List.length_range, dropEvents]
  · rfl
  · exact Nat.zero_lt_one

lemma get_plugin_mapInsert (m : PluginManager) (k : String) (v : CoprocessorPlugin)
    (name : String) :
    get_plugin (mapInsert m k v) name = if k = name then some v else get_plugin m name := by
  induction m with
  | nil => rfl
  | cons hd tl ih =>
    obtain ⟨k0, v0⟩ := hd
    by_cases h1 : k0 = k
    · subst h1
      by_cases h2 : k0 = name <;> simp [mapInsert, get_plugin, h2]
    · by_cases h2 : k0 = name
      · subst h2
        have hk : ¬k = k0 := fun h => h1 h.symm
        simp [mapInsert, get_plugin, h1, hk]
      · simp [mapInsert, get_plugin, h1, h2, ih]

lemma get_plugin_mapRemove (m : PluginManager) (k : String) (name : String) :
    get_plugin (mapRemove m k) name = if k = name then none else get_plugin m name := by
  induction m with
  | nil => simp [mapRemove, get_plugin]
  | cons hd tl ih =>
    obtain ⟨k0, v0⟩ := hd
    by_cases h1 : k0 = k
    · subst h1
      by_cases h2 : k0 = name
      · subst h2
        simp [mapRemove, get_plugin, ih]
      · simp [mapRemove, get_plugin, h2, ih]
    · by_cases h2 : k0 = name
      · subst h2
        have hk : ¬k = k0 := fun h => h1 h.symm
        simp [mapRemove, get_plugin, h1, hk]
      · simp [mapRemove, get_plugin, h1, h2, ih]

lemma foldl_lastOpStep_init (name : String) (ops : List RegOp) (acc : Option RegOp) :
    ops.foldl (lastOpStep name) acc =
      match ops.foldl (lastOpStep name) none with
      | some o => some o
      | none => acc := by
  induction ops generalizing acc with
  | nil => rfl
  | cons op rest ih =>
    simp only [List.foldl_cons]
    rw [ih (lastOpStep name acc op), ih (lastOpStep name none op)]
    cases hr : rest.foldl (lastOpStep name) none with
    | some o => rfl
    | none =>
      show lastOpStep name acc op =
        match lastOpStep name none op with
        | some o => some o
        | none => acc
      unfold lastOpStep
      by_cases h : keyOf op = name <;> simp [h]

lemma get_plugin_applyOps (ops : List RegOp) (pm : PluginManager) (name : String) :
    get_plugin (applyOps pm ops) name =
      match lastOpFor name ops with
      | some (RegOp.install f) => some f.plugin
      | some (RegOp.uninstall _) => none
      | none => get_plugin pm name := by
  induction ops generalizing pm with
  | nil => rfl
  | cons op rest ih =>
    rw [show applyOps pm (op :: rest) = applyOps (applyOp pm op) rest from rfl]
    rw [ih (applyOp pm op)]
    rw [show lastOpFor name (op :: rest) =
      rest.foldl (lastOpStep name) (lastOpStep name none op) from rfl]
    rw [foldl_lastOpStep_init name rest (lastOpStep name none op)]
    cases hr : lastOpFor name rest with
    | some o =>
      rw [show lastOpFor name rest = rest.foldl (lastOpStep name) none from rfl] at hr
      rw [hr]
      cases o <;> rfl
    | none =>
      rw [show lastOpFor name rest = rest.foldl (lastOpStep name) none from rfl] at hr
      rw [hr]
      cases op with
      | install f =>
        show get_plugin (mapInsert pm f.plugin.name f.plugin) name =
          match lastOpStep name none (RegOp.install f) with
          | some (RegOp.install f) => some f.plugin
          | some (RegOp.uninstall _) => none
          | none => get_plugin pm name
        rw [get_plugin_mapInsert]
        unfold lastOpStep
        by_cases h : f.plugin.name = name <;> simp [keyOf, h]
      | uninstall n =>
        show get_plugin (mapRemove pm n) name =
          match lastOpStep name none (RegOp.uninstall n) with
          | some (RegOp.install f) => some f.plugin
          | some (RegOp.uninstall _) => none
          | none => get_plugin pm name
        rw [get_plugin_mapRemove]
        unfold lastOpStep
        by_cases h : n = name <;> simp [keyOf, h]

/-- Claim C7: for any sequence of install/uninstall operations applied
to the initially empty registry, `get(name)` returns `Some` exactly when
the last operation whose key is `name` is an install (no uninstall has
followed it); and the index key is the name the plugin reports through
its own `name()` hook, not the library filename — installing a file
whose path differs from the plugin's name makes the plugin retrievable
under its name and not under the path. -/
theorem registry_get_iff_last_install :
    (∀ (ops : List RegOp) (name : String),
      (∃ p, get_plugin (applyOps [] ops) name = some p) ↔
        ∃ f, lastOpFor name ops = some (RegOp.install f)) ∧
    (∀ f : PluginFile, f.path ≠ f.plugin.name →
      get_plugin (applyOps [] [RegOp.install f]) f.plugin.name = some f.plugin ∧
      get_plugin (applyOps [] [RegOp.install f]) f.path = none) := by
  constructor
  · intro ops name
    rw [get_plugin_applyOps]
    cases h : lastOpFor name ops with
    | some o =>
      cases o with
      | install f =>
        exact ⟨fun _ => ⟨f, rfl⟩, fun _ => ⟨f.plugin, rfl⟩⟩
      | uninstall n =>
        constructor
        · rintro ⟨p, hp⟩; exact absurd hp (by simp)
        · rintro ⟨f, hf⟩; exact absurd hf (by simp)
    | none =>
      constructor
      · rintro ⟨p, hp⟩; exact absurd hp (by simp [get_plugin])
      · rintro ⟨f, hf⟩; exact absurd hf (by simp)
  · intro f hne
    constructor
    · rw [show applyOps [] [RegOp.install f] =
        mapInsert [] f.plugin.name f.plugin from rfl]
      rw [get_plugin_mapInsert]
      simp
    · rw [show applyOps [] [RegOp.install f] =
        mapInsert [] f.plugin.name f.plugin from rfl]
      rw [get_plugin_mapInsert]
      have h : ¬f.plugin.name = f.path := fun h => hne h.symm
      simp [get_plugin, h]

/-- Witness for C7: installing `examplePluginFile` (path
"libexample.so", plugin name "echo") makes the plugin retrievable under
"echo" and not under "libexample.so". -/
theorem registry_get_iff_last_install_witness :
    (∃ p, get_plugin (applyOps [] [RegOp.install examplePluginFile]) "echo" = some p) ∧
    get_plugin (applyOps [] [RegOp.install examplePluginFile]) "libexample.so" = none :=
  ⟨(registry_get_iff_last_install.1 [RegOp.install examplePluginFile] "echo").mpr
      ⟨examplePluginFile, rfl⟩,
    (registry_get_iff_last_install.2 examplePluginFile (by decide)).2⟩

end TikvCoprV2
